import Mathlib

/-!
Verification of the PyTMX map loader (src/pytmx/pytmx.py) against its
natural-language specification.

The Python source is shallowly embedded: pure functions become Lean
functions, the mutable GID registry of `TiledMap` becomes explicit state
passing over a `MapState` record, Python exceptions become `Except PyError`,
and Python `None` becomes `Option`.  Machine integers are modelled by `Nat`
or `Int` (CPython integers are unbounded, so no wrap-around is involved;
the 32-bit restriction of raw GIDs appears as an explicit hypothesis).

The constants module (`pytmx/constants.py`) is pulled in by the source via
a star-import but is not part of the provided sources; the six GID flag
constants it defines are modelled from the spec (see below).
-/

set_option maxHeartbeats 1000000

deriving instance DecidableEq for Except

namespace PyTMX

/-- Python exceptions raised by the embedded code.  `exception msg` models a
bare `raise Exception` whose diagnostic message was printed just before the
raise; we record the message so the error cause stays observable. -/
inductive PyError where
  | valueError
  | typeError
  | attributeError
  | overflowError
  | stopIteration
  | exception (msg : String)
  deriving DecidableEq, Repr

/-- The whitespace characters stripped by Python `str.strip()` (ASCII part). -/
def pyWS (c : Char) : Bool :=
  c = ' ' || c = '\t' || c = '\n' || c = '\r' || c = '\x0b' || c = '\x0c'

/-- Python `str.strip()` on a character list. -/
def pyStripList (cs : List Char) : List Char :=
  ((cs.dropWhile pyWS).reverse.dropWhile pyWS).reverse

/-- Python `str.strip()`. -/
def pyStrip (s : String) : String :=
  String.mk (pyStripList s.data)

/-- Python `str.lower()` (ASCII; the source only compares against ASCII
keywords). -/
def pyLower (s : String) : String :=
  String.mk (s.data.map Char.toLower)

/-- Python `str(x)` for an optional string: `str(None)` is `"None"`. -/
def pyStr : Option String → String
  | none => "None"
  | some s => s

/-- Decimal digit run with PEP 515 underscore grouping: after an initial
digit, an underscore must be followed by another digit.  `acc` is the value
accumulated so far; returns `none` on a malformed tail. -/
def digitTail (acc : Nat) : List Char → Option Nat
  | [] => some acc
  | '_' :: rest =>
      match rest with
      | c :: rest2 => if c.isDigit then digitTail (acc * 10 + (c.toNat - 48)) rest2 else none
      | [] => none
  | c :: rest => if c.isDigit then digitTail (acc * 10 + (c.toNat - 48)) rest else none

/-- A nonempty decimal digit run (first character must be a digit). -/
def parseDigits : List Char → Option Nat
  | c :: rest => if c.isDigit then digitTail (c.toNat - 48) rest else none
  | [] => none

/-- Python `int(s)` for a decimal string: optional surrounding whitespace,
optional single sign, then ASCII digits with underscore grouping.
(Unicode digits and non-ASCII whitespace accepted by CPython are outside
the model.)  `none` models the `ValueError` raised on anything else. -/
def pyIntOfString (s : String) : Option Int :=
  match pyStripList s.data with
  | '+' :: rest => (parseDigits rest).map Int.ofNat
  | '-' :: rest => (parseDigits rest).map (fun n => -(n : Int))
  | cs => (parseDigits cs).map Int.ofNat

/-- `handle_bool` (pytmx.py lines 34-49): first `bool(int(text))` under a
bare `except`, then case-insensitive keyword comparison, else `ValueError`.
The argument is an `Option String` because the call site passes
`subnode.get('value')`, which can be `None`; `int(None)` raises `TypeError`
(swallowed by the bare except) and `str(None).lower() = "none"` matches no
keyword. -/
def handle_bool (text : Option String) : Except PyError Bool :=
  match text with
  | none => .error .valueError
  | some s =>
      match pyIntOfString s with
      | some n => .ok (decide (n ≠ 0))
      | none =>
          let t := pyLower s
          if t = "true" then .ok true
          else if t = "yes" then .ok true
          else if t = "false" then .ok false
          else if t = "no" then .ok false
          else .error .valueError

/-- Single-character `str.strip()`: iterating a Python string yields
one-character strings; stripping such a string leaves `[]` when the
character is whitespace and the character itself otherwise.  Used by the
CSV branch of `TileLayer.from_xml` (lines 549-552), which iterates the
payload text character by character. -/
def csvCharStrip (c : Char) : List Char :=
  if pyWS c then [] else [c]

/-- `"".join(line.strip() for line in data_node.text.strip())`: the payload
is stripped, then each individual character is stripped and the results are
concatenated. -/
def csvJoined (text : String) : String :=
  String.mk (((pyStrip text).data.map csvCharStrip).flatten)

/-- Python `s.split(",")`: split on every comma, keeping empty fields
(`"".split(",")` is `[""]`, `"a,".split(",")` is `["a", ""]`).  `acc` holds
the current field, reversed. -/
def pySplitComma (acc : List Char) : List Char → List (List Char)
  | [] => [acc.reverse]
  | c :: rest => if c = ',' then acc.reverse :: pySplitComma [] rest else pySplitComma (c :: acc) rest

/-- The CSV token list: the joined text split on every comma. -/
def csvTokens (text : String) : List String :=
  (pySplitComma [] (csvJoined text).data).map String.mk

/-- The raw GID sequence produced when the lazy `map(int, tokens)` of the
CSV branch is consumed; `none` when some token is not a valid integer. -/
def csvValues (text : String) : Option (List Int) :=
  (csvTokens text).mapM pyIntOfString

theorem csvJoined_filter (cs : List Char) :
    ((cs.map csvCharStrip).flatten) = cs.filter (fun c => !(pyWS c)) := by
  induction cs with
  | nil => rfl
  | cons c rest ih =>
      simp only [List.map_cons, List.flatten, List.filter]
      cases h : pyWS c with
      | true => simp [csvCharStrip, h, ih]
      | false => simp [csvCharStrip, h, ih]

/-- C7.  Boolean property decoding: a string that parses as an integer
decodes to the truth value of "nonzero"; otherwise the lowercased text
decides via the true/yes/false/no keywords; anything else is a decode
error (`ValueError`), never a default.  Includes the spec examples
"0" → False, "yes" → True, "maybe" → error. -/
theorem handle_bool_decoding (s : String) :
    (∀ n, pyIntOfString s = some n → handle_bool (some s) = .ok (decide (n ≠ 0)))
  ∧ (pyIntOfString s = none →
      ((pyLower s = "true" ∨ pyLower s = "yes") → handle_bool (some s) = .ok true)
      ∧ ((pyLower s = "false" ∨ pyLower s = "no") → handle_bool (some s) = .ok false)
      ∧ (pyLower s ≠ "true" → pyLower s ≠ "yes" → pyLower s ≠ "false" → pyLower s ≠ "no" →
          handle_bool (some s) = .error .valueError))
  ∧ handle_bool (some "0") = .ok false
  ∧ handle_bool (some "yes") = .ok true
  ∧ handle_bool (some "maybe") = .error .valueError := by
  refine ⟨?_, ?_, by decide, by decide, by decide⟩
  · intro n hn
    simp [handle_bool, hn]
  · intro hnone
    refine ⟨?_, ?_, ?_⟩
    · rintro (h | h) <;> simp [handle_bool, hnone, h]
    · rintro (h | h) <;> simp [handle_bool, hnone, h]
    · intro h1 h2 h3 h4
      simp [handle_bool, hnone, h1, h2, h3, h4]

theorem handle_bool_decoding_witness :
    pyIntOfString "7" = some 7 ∧ handle_bool (some "7") = .ok true := by
  have h := (handle_bool_decoding "7").1 7 (by decide)
  exact ⟨by decide, by simpa using h⟩

/-- C10.  CSV layer decoding strips every individual whitespace character
from the payload before splitting on commas, so whitespace inside a
numeral joins its digits: `"1 2,3"` decodes to `[12, 3]`, not `[1, 2, 3]`
and not an error. -/
theorem csv_whitespace_joining (text : String) :
    csvJoined text = String.mk ((pyStrip text).data.filter (fun c => !(pyWS c)))
  ∧ csvValues "1 2,3" = some [12, 3]
  ∧ csvValues "1 2,3" ≠ some [1, 2, 3] := by
  refine ⟨?_, by decide, by decide⟩
  unfold csvJoined
  rw [csvJoined_filter]

theorem csv_whitespace_joining_witness :
    csvJoined " 1 2,3 " = String.mk ((pyStrip " 1 2,3 ").data.filter (fun c => !(pyWS c))) :=
  (csv_whitespace_joining " 1 2,3 ").1

/-! The GID codec: `decode_gid` (pytmx.py lines 22-31).  The flag
constants come from `pytmx/constants.py`, which the source pulls in with a
star-import of `.constants` but which is not among the provided files. -/

/-- Modelled from the spec: `GID_TRANS_FLIPX` is the horizontal-flip flag
bit, the highest of the "three fixed high bits" of a 32-bit raw GID; the
spec example `0x80000007` has this bit set. -/
def GID_TRANS_FLIPX : Nat := 2 ^ 31

/-- Modelled from the spec: the vertical-flip flag bit, the second of the
three high bits. -/
def GID_TRANS_FLIPY : Nat := 2 ^ 30

/-- Modelled from the spec: the diagonal-flip/rotate flag bit, the third of
the three high bits. -/
def GID_TRANS_ROT : Nat := 2 ^ 29

/-- Modelled from the spec: flags are "stored as an integer sum of flag
values 1/2/4"; FLIP_X contributes 1. -/
def TRANS_FLIPX : Nat := 1

/-- Modelled from the spec: FLIP_Y contributes 2. -/
def TRANS_FLIPY : Nat := 2

/-- Modelled from the spec: ROTATED contributes 4. -/
def TRANS_ROT : Nat := 4

/-- `decode_gid(raw_gid)`: each flag bit is tested independently and adds
its flag value; the base GID is the raw GID with the three flag bits masked
off.  Python computes the mask-off as `raw_gid & ~mask` on an unbounded
int; for the 32-bit raw GIDs the claims quantify over this equals AND with
the 32-bit complement of the mask, which is how it is written here. -/
def decode_gid (raw_gid : Nat) : Nat × Nat :=
  let f1 := if raw_gid &&& GID_TRANS_FLIPX = GID_TRANS_FLIPX then TRANS_FLIPX else 0
  let f2 := if raw_gid &&& GID_TRANS_FLIPY = GID_TRANS_FLIPY then f1 + TRANS_FLIPY else f1
  let f3 := if raw_gid &&& GID_TRANS_ROT = GID_TRANS_ROT then f2 + TRANS_ROT else f2
  let gid := raw_gid &&& (4294967295 ^^^ (GID_TRANS_FLIPX ||| GID_TRANS_FLIPY ||| GID_TRANS_ROT))
  (gid, f3)

/-- Modelled from the spec: the inverse direction of the codec round-trip,
"re-combining base_gid with the flag bits at their fixed positions".  The
source has no encoder; this follows the spec's words. -/
def encode_gid (gid flags : Nat) : Nat :=
  gid + (if flags &&& TRANS_FLIPX ≠ 0 then GID_TRANS_FLIPX else 0)
      + (if flags &&& TRANS_FLIPY ≠ 0 then GID_TRANS_FLIPY else 0)
      + (if flags &&& TRANS_ROT ≠ 0 then GID_TRANS_ROT else 0)

theorem and_mask_eq_mod (n i : Nat) : n &&& (2 ^ i - 1) = n % 2 ^ i := by
  apply Nat.eq_of_testBit_eq
  intro j
  simp [Nat.testBit_and, Nat.testBit_mod_two_pow, Bool.and_comm]

theorem and_pow_eq_iff (n i : Nat) : (n &&& 2 ^ i = 2 ^ i) ↔ n / 2 ^ i % 2 = 1 := by
  have ht : n.testBit i = decide (n / 2 ^ i % 2 = 1) := Nat.testBit_to_div_mod
  have hpos := Nat.two_pow_pos i
  rw [Nat.and_two_pow]
  cases h : n.testBit i with
  | true =>
      rw [h] at ht
      have hd : n / 2 ^ i % 2 = 1 := of_decide_eq_true ht.symm
      simp only [Bool.toNat_true, Nat.one_mul]
      simp [hd]
  | false =>
      rw [h] at ht
      have hd : n / 2 ^ i % 2 ≠ 1 := by
        intro hx
        rw [hx] at ht
        simp at ht
      simp only [Bool.toNat_false, Nat.zero_mul]
      constructor
      · intro h0
        omega
      · intro h1
        exact absurd h1 hd

theorem and_pow_ne_iff (n i : Nat) : (n &&& 2 ^ i ≠ 0) ↔ n / 2 ^ i % 2 = 1 := by
  have ht : n.testBit i = decide (n / 2 ^ i % 2 = 1) := Nat.testBit_to_div_mod
  have hpos := Nat.two_pow_pos i
  rw [Nat.and_two_pow]
  cases h : n.testBit i with
  | true =>
      rw [h] at ht
      have hd : n / 2 ^ i % 2 = 1 := of_decide_eq_true ht.symm
      simp only [Bool.toNat_true, Nat.one_mul]
      simp [hd]
  | false =>
      rw [h] at ht
      have hd : n / 2 ^ i % 2 ≠ 1 := by
        intro hx
        rw [hx] at ht
        simp at ht
      simp only [Bool.toNat_false, Nat.zero_mul]
      constructor
      · intro h0
        exact absurd rfl h0
      · intro h1
        exact absurd h1 hd

/-- `decode_gid` in arithmetic form: the base GID is `raw % 2^29` and the
flags read off bits 31, 30, 29. -/
theorem decode_gid_spec (raw : Nat) :
    decode_gid raw = (raw % 2 ^ 29,
      ((if raw / 2 ^ 31 % 2 = 1 then 1 else 0) +
       (if raw / 2 ^ 30 % 2 = 1 then 2 else 0)) +
      (if raw / 2 ^ 29 % 2 = 1 then 4 else 0)) := by
  have hmask : ((4294967295 : Nat) ^^^ (2 ^ 31 ||| 2 ^ 30 ||| 2 ^ 29)) = 2 ^ 29 - 1 := by decide
  unfold decode_gid GID_TRANS_FLIPX GID_TRANS_FLIPY GID_TRANS_ROT TRANS_FLIPX TRANS_FLIPY TRANS_ROT
  rw [hmask, and_mask_eq_mod]
  simp only [and_pow_eq_iff, Prod.mk.injEq, true_and]
  split_ifs <;> norm_num

/-- `encode_gid` in arithmetic form: the flag tests read off bits 0, 1, 2
of the flag word. -/
theorem encode_gid_spec (gid flags : Nat) :
    encode_gid gid flags = gid + (if flags % 2 = 1 then 2147483648 else 0)
      + (if flags / 2 % 2 = 1 then 1073741824 else 0)
      + (if flags / 4 % 2 = 1 then 536870912 else 0) := by
  have e1 : (flags &&& 1 ≠ 0) ↔ flags % 2 = 1 := by
    rw [Nat.and_one_is_mod]
    omega
  have e2 : (flags &&& 2 ≠ 0) ↔ flags / 2 % 2 = 1 := by
    have h := and_pow_ne_iff flags 1
    norm_num at h
    exact h
  have e4 : (flags &&& 4 ≠ 0) ↔ flags / 4 % 2 = 1 := by
    have h := and_pow_ne_iff flags 2
    norm_num at h
    exact h
  unfold encode_gid TRANS_FLIPX TRANS_FLIPY TRANS_ROT GID_TRANS_FLIPX GID_TRANS_FLIPY GID_TRANS_ROT
  simp only [e1, e2, e4]
  norm_num

/-- C2.  The GID codec is a bijection between 32-bit raw GIDs and
`(base_gid, flags)` pairs with `base_gid < 2^29` and `flags < 8`:
re-combining base GID and flags reproduces the raw GID, decoding an
encoded pair gives the pair back, raw GID 0 decodes to `(0, {})`, and raw
GID `0x80000007` decodes to base 7 with the FLIP_X flag. -/
theorem decode_gid_codec_bijection (raw : Nat) (h : raw < 2 ^ 32) :
    encode_gid (decode_gid raw).1 (decode_gid raw).2 = raw
  ∧ (decode_gid raw).1 < 2 ^ 29 ∧ (decode_gid raw).2 < 8
  ∧ (∀ b f, b < 2 ^ 29 → f < 8 → decode_gid (encode_gid b f) = (b, f))
  ∧ decode_gid 0 = (0, 0)
  ∧ decode_gid 0x80000007 = (7, TRANS_FLIPX) := by
  refine ⟨?_, ?_, ?_, ?_, by decide, by decide⟩
  · rw [decode_gid_spec]
    dsimp only
    rw [encode_gid_spec]
    split_ifs <;> first | exact False.elim (by assumption) | omega
  · rw [decode_gid_spec]
    exact Nat.mod_lt raw (by norm_num)
  · rw [decode_gid_spec]
    dsimp only
    split_ifs <;> first | exact False.elim (by assumption) | omega
  · intro b f hb hf
    rw [encode_gid_spec, decode_gid_spec]
    simp only [Prod.mk.injEq]
    split_ifs <;> first | exact False.elim (by assumption) | omega

theorem decode_gid_codec_bijection_witness :
    (0x80000007 : Nat) < 2 ^ 32
  ∧ encode_gid (decode_gid 0x80000007).1 (decode_gid 0x80000007).2 = 0x80000007 :=
  ⟨by decide, (decode_gid_codec_bijection 0x80000007 (by decide)).1⟩

/-! The GID registry.

The mutable registry owned by `TiledMap` (`__init__` lines 175-180,
`register_gid` lines 400-417, `map_gid` lines 419-432).  Python dicts are
modelled as association lists; `gidmap` is a `defaultdict(list)`, so a
missing key reads as `[]` (the implicit insertion of that empty list is
observably equivalent to leaving the key absent). -/

structure MapState where
  /-- `self.imagemap`: maps `(tiled_gid, flags)` to the stored tuple
  `(gid, flags)`.  The source initialises `imagemap[(0, 0)] = 0` with a bare
  int; that entry is only ever read through `[0]` by `register_gid`, which
  guards `tiled_gid` nonzero and therefore never touches it, so it is
  modelled as the pair `(0, 0)`. -/
  imagemap : List ((Nat × Nat) × (Nat × Nat))
  /-- `self.gidmap`: `defaultdict(list)` from tiled GID to the list of
  `(gid, flags)` allocations, in append order. -/
  gidmap : List (Nat × List (Nat × Nat))
  /-- `self.maxgid`, the next compact GID to allocate; starts at 1. -/
  maxgid : Nat
  deriving DecidableEq, Repr

/-- Association-list lookup for `imagemap`. -/
def lookupImg : List ((Nat × Nat) × (Nat × Nat)) → (Nat × Nat) → Option (Nat × Nat)
  | [], _ => none
  | (k, v) :: rest, key => if key = k then some v else lookupImg rest key

/-- `self.gidmap[tiled_gid].append(e)`: append at the end of the key's
list, creating the entry if absent. -/
def gidmapAppend : List (Nat × List (Nat × Nat)) → Nat → (Nat × Nat) → List (Nat × List (Nat × Nat))
  | [], g, e => [(g, [e])]
  | (k, l) :: rest, g, e =>
      if g = k then (k, l ++ [e]) :: rest else (k, l) :: gidmapAppend rest g e

/-- Reading `self.gidmap[tiled_gid]` (a `defaultdict(list)`): missing keys
read as `[]`. -/
def gidmapGet : List (Nat × List (Nat × Nat)) → Nat → List (Nat × Nat)
  | [], _ => []
  | (k, l) :: rest, g => if g = k then l else gidmapGet rest g

/-- The registry of a freshly constructed `TiledMap`. -/
def initMapState : MapState :=
  { imagemap := [((0, 0), (0, 0))], gidmap := [], maxgid := 1 }

/-- `TiledMap.register_gid(tiled_gid, flags)`: 0 passes through with no
side effect; otherwise a hit in `imagemap` returns the stored compact GID,
and a miss allocates `maxgid`, advances the counter, and records the
allocation in both tables.  Returns the compact GID and the new state. -/
def register_gid (st : MapState) (tiled_gid : Nat) (flags : Nat) : Nat × MapState :=
  if tiled_gid ≠ 0 then
    match lookupImg st.imagemap (tiled_gid, flags) with
    | some v => (v.1, st)
    | none =>
        let gid := st.maxgid
        (gid, { imagemap := ((tiled_gid, flags), (gid, flags)) :: st.imagemap,
                gidmap := gidmapAppend st.gidmap tiled_gid (gid, flags),
                maxgid := st.maxgid + 1 })
  else (0, st)

/-- `TiledMap.map_gid(tiled_gid)` (the spec's `lookup_origins`): the list of
`(gid, flags)` allocations for a tiled GID, `[]` when none were made.  The
function never raises for integer arguments: `defaultdict` supplies `[]`. -/
def map_gid (st : MapState) (tiled_gid : Nat) : List (Nat × Nat) :=
  gidmapGet st.gidmap tiled_gid

/-- Run a sequence of `register_gid` calls, collecting the returned compact
GIDs and threading the registry state. -/
def runRegs (st : MapState) : List (Nat × Nat) → List Nat × MapState
  | [] => ([], st)
  | c :: rest =>
      let p := register_gid st c.1 c.2
      let q := runRegs p.2 rest
      (p.1 :: q.1, q.2)

/-- The registry state after a sequence of `register_gid` calls. -/
def runState (st : MapState) (calls : List (Nat × Nat)) : MapState :=
  (runRegs st calls).2

/-- The allocation trace of a call sequence, written from the spec's words:
a call allocates exactly when its base GID is nonzero and its pair was not
seen before; allocations receive consecutive compact GIDs starting at
`next`.  Used as the specification-side description of the registry. -/
def allocList : List (Nat × Nat) → List (Nat × Nat) → Nat → List ((Nat × Nat) × Nat)
  | [], _, _ => []
  | c :: rest, seen, next =>
      if c.1 ≠ 0 ∧ c ∉ seen then (c, next) :: allocList rest (c :: seen) (next + 1)
      else allocList rest seen next

theorem reg_zero (st : MapState) (f : Nat) : register_gid st 0 f = (0, st) := by
  simp [register_gid]

theorem reg_hit (st : MapState) (g f : Nat) (v : Nat × Nat) (hg : g ≠ 0)
    (h : lookupImg st.imagemap (g, f) = some v) : register_gid st g f = (v.1, st) := by
  simp [register_gid, hg, h]

theorem reg_miss (st : MapState) (g f : Nat) (hg : g ≠ 0)
    (h : lookupImg st.imagemap (g, f) = none) :
    register_gid st g f = (st.maxgid,
      { imagemap := ((g, f), (st.maxgid, f)) :: st.imagemap,
        gidmap := gidmapAppend st.gidmap g (st.maxgid, f),
        maxgid := st.maxgid + 1 }) := by
  simp [register_gid, hg, h]

theorem lookupImg_cons (k0 : Nat × Nat) (v0 : Nat × Nat) (m : List ((Nat × Nat) × (Nat × Nat)))
    (k : Nat × Nat) :
    lookupImg ((k0, v0) :: m) k = if k = k0 then some v0 else lookupImg m k := rfl

/-- `register_gid` never removes or overwrites `imagemap` entries. -/
theorem lookupImg_register_mono (st : MapState) (g f : Nat) (k : Nat × Nat) (v : Nat × Nat)
    (h : lookupImg st.imagemap k = some v) :
    lookupImg (register_gid st g f).2.imagemap k = some v := by
  by_cases hg : g = 0
  · subst hg
    rw [reg_zero]
    exact h
  · cases hl : lookupImg st.imagemap (g, f) with
    | some w =>
        rw [reg_hit st g f w hg hl]
        exact h
    | none =>
        rw [reg_miss st g f hg hl]
        rw [lookupImg_cons]
        have hk : k ≠ (g, f) := by
          intro he
          rw [he, hl] at h
          cases h
        simp [hk, h]

/-- `imagemap` entries survive any further sequence of calls. -/
theorem lookupImg_run_mono (calls : List (Nat × Nat)) (st : MapState) (k : Nat × Nat)
    (v : Nat × Nat) (h : lookupImg st.imagemap k = some v) :
    lookupImg (runState st calls).imagemap k = some v := by
  induction calls generalizing st with
  | nil => exact h
  | cons c rest ih =>
      exact ih (register_gid st c.1 c.2).2 (lookupImg_register_mono st c.1 c.2 k v h)

/-- Each output of a nonzero call equals the compact GID stored for its
pair in the final `imagemap`. -/
theorem runRegs_out_lookup (calls : List (Nat × Nat)) :
    ∀ (st : MapState) (i : Nat) (hi : i < calls.length),
      (calls.get ⟨i, hi⟩).1 ≠ 0 →
      (runRegs st calls).1[i]? =
        (lookupImg (runState st calls).imagemap (calls.get ⟨i, hi⟩)).map (fun v => v.1) := by
  induction calls with
  | nil =>
      intro st i hi
      exact absurd hi (by simp)
  | cons c rest ih =>
      intro st i hi hz
      cases i with
      | zero =>
          simp only [List.get] at hz ⊢
          show (runRegs st (c :: rest)).1[0]? = _
          have hc : (c.1, c.2) = c := rfl
          cases hl : lookupImg st.imagemap (c.1, c.2) with
          | some v =>
              have hreg := reg_hit st c.1 c.2 v hz hl
              have hfin : lookupImg (runState st (c :: rest)).imagemap c = some v := by
                show lookupImg (runState (register_gid st c.1 c.2).2 rest).imagemap c = some v
                exact lookupImg_run_mono rest _ c v (by rw [hreg]; rw [hc] at hl; exact hl)
              rw [hfin]
              simp [runRegs, hreg]
          | none =>
              have hreg := reg_miss st c.1 c.2 hz hl
              have hfin : lookupImg (runState st (c :: rest)).imagemap c = some (st.maxgid, c.2) := by
                show lookupImg (runState (register_gid st c.1 c.2).2 rest).imagemap c
                  = some (st.maxgid, c.2)
                refine lookupImg_run_mono rest _ c (st.maxgid, c.2) ?_
                rw [hreg]
                show lookupImg (((c.1, c.2), (st.maxgid, c.2)) :: st.imagemap) c
                  = some (st.maxgid, c.2)
                rw [lookupImg_cons]
                simp [hc]
              rw [hfin]
              simp [runRegs, hreg]
      | succ n =>
          have hi2 : n < rest.length := by simpa using hi
          have hz2 : (rest.get ⟨n, hi2⟩).1 ≠ 0 := by simpa using hz
          have := ih (register_gid st c.1 c.2).2 n hi2 hz2
          simpa [runRegs, runState] using this

theorem filter_length_update {α : Type} (l : List α) (c : α) (p q : α → Bool)
    (hnd : l.Nodup) (hmem : c ∈ l) (hp : p c = true) (hq : q c = false)
    (hagree : ∀ x ∈ l, x ≠ c → p x = q x) :
    (l.filter p).length = (l.filter q).length + 1 := by
  induction l with
  | nil => cases hmem
  | cons a rest ih =>
      have hnr : a ∉ rest := (List.nodup_cons.mp hnd).1
      have hndr : rest.Nodup := (List.nodup_cons.mp hnd).2
      by_cases hac : a = c
      · subst hac
        have hfeq : rest.filter p = rest.filter q := by
          apply List.filter_congr
          intro x hx
          exact hagree x (List.mem_cons_of_mem _ hx) (fun hxa => hnr (hxa ▸ hx))
        simp [List.filter_cons, hp, hq, hfeq]
      · have hmem2 : c ∈ rest := by
          rcases List.mem_cons.mp hmem with h1 | h2
          · exact absurd h1.symm hac
          · exact h2
        have hpa : p a = q a := hagree a (List.mem_cons_self a rest) hac
        have ihr := ih hndr hmem2 (fun x hx hxc => hagree x (List.mem_cons_of_mem _ hx) hxc)
        cases hb : p a with
        | true => simp [List.filter_cons, hb, hpa ▸ hb, ihr]
        | false => simp [List.filter_cons, hb, hpa ▸ hb, ihr]

/-- A miss registration leaves all other keys untouched. -/
theorem lookupImg_cons_ne (st : MapState) (g f : Nat) (k : Nat × Nat) (hk : k ≠ (g, f)) :
    lookupImg (((g, f), (st.maxgid, f)) :: st.imagemap) k = lookupImg st.imagemap k := by
  rw [lookupImg_cons]
  simp [hk]

/-- The allocation counter after a run: the initial counter plus the number
of distinct nonzero pairs in the calls that were not already registered. -/
theorem runState_maxgid (calls : List (Nat × Nat)) :
    ∀ st : MapState,
      (runState st calls).maxgid = st.maxgid +
        (((calls.filter (fun c => c.1 != 0)).dedup).filter
          (fun c => (lookupImg st.imagemap c).isNone)).length := by
  induction calls with
  | nil =>
      intro st
      simp [runState, runRegs]
  | cons c rest ih =>
      intro st
      by_cases hz : c.1 = 0
      · have hreg : register_gid st c.1 c.2 = (0, st) := by rw [hz]; exact reg_zero st c.2
        have hrun : runState st (c :: rest) = runState st rest := by
          simp [runState, runRegs, hreg]
        rw [hrun, ih st]
        have : (c :: rest).filter (fun c => c.1 != 0) = rest.filter (fun c => c.1 != 0) := by
          simp [List.filter_cons, hz]
        rw [this]
      · have hc : (c.1, c.2) = c := rfl
        have hbz : (c.1 != 0) = true := by simpa using hz
        have hfcons : (c :: rest).filter (fun c => c.1 != 0)
            = c :: rest.filter (fun c => c.1 != 0) := by
          simp [List.filter_cons, hbz]
        cases hl : lookupImg st.imagemap (c.1, c.2) with
        | some v =>
            have hreg := reg_hit st c.1 c.2 v hz hl
            have hrun : runState st (c :: rest) = runState st rest := by
              simp [runState, runRegs, hreg]
            rw [hrun, ih st, hfcons]
            rw [hc] at hl
            by_cases hmem : c ∈ rest.filter (fun c => c.1 != 0)
            · rw [List.dedup_cons_of_mem hmem]
            · rw [List.dedup_cons_of_not_mem hmem]
              have : ((lookupImg st.imagemap c).isNone) = false := by simp [hl]
              simp [List.filter_cons, this]
        | none =>
            have hreg := reg_miss st c.1 c.2 hz hl
            set st2 : MapState :=
              { imagemap := ((c.1, c.2), (st.maxgid, c.2)) :: st.imagemap,
                gidmap := gidmapAppend st.gidmap c.1 (st.maxgid, c.2),
                maxgid := st.maxgid + 1 } with hst2
            have hrun : runState st (c :: rest) = runState st2 rest := by
              simp [runState, runRegs, hreg]
            have hlook2 : ∀ k : Nat × Nat, k ≠ c →
                lookupImg st2.imagemap k = lookupImg st.imagemap k := by
              intro k hk
              show lookupImg (((c.1, c.2), (st.maxgid, c.2)) :: st.imagemap) k = _
              rw [lookupImg_cons]
              simp [hc, hk]
            have hlookc : lookupImg st2.imagemap c = some (st.maxgid, c.2) := by
              show lookupImg (((c.1, c.2), (st.maxgid, c.2)) :: st.imagemap) c = _
              rw [lookupImg_cons]
              simp [hc]
            rw [hrun, ih st2, hfcons]
            have hmax2 : st2.maxgid = st.maxgid + 1 := rfl
            rw [hc] at hl
            by_cases hmem : c ∈ rest.filter (fun c => c.1 != 0)
            · rw [List.dedup_cons_of_mem hmem]
              have hcnt := filter_length_update (rest.filter (fun c => c.1 != 0)).dedup c
                (fun k => (lookupImg st.imagemap k).isNone)
                (fun k => (lookupImg st2.imagemap k).isNone)
                (List.nodup_dedup _) (List.mem_dedup.mpr hmem)
                (by simp [hl]) (by simp [hlookc])
                (fun x _ hxc => by
                  show (lookupImg st.imagemap x).isNone = (lookupImg st2.imagemap x).isNone
                  rw [hlook2 x hxc])
              omega
            · rw [List.dedup_cons_of_not_mem hmem]
              have hfeq : ((rest.filter (fun c => c.1 != 0)).dedup).filter
                    (fun k => (lookupImg st2.imagemap k).isNone)
                  = ((rest.filter (fun c => c.1 != 0)).dedup).filter
                    (fun k => (lookupImg st.imagemap k).isNone) := by
                apply List.filter_congr
                intro x hx
                have hxc : x ≠ c := by
                  intro he
                  exact hmem (he ▸ List.mem_dedup.mp hx)
                rw [hlook2 x hxc]
              have hcfil : ((lookupImg st.imagemap c).isNone) = true := by simp [hl]
              rw [hfeq]
              have hsplit : (c :: (rest.filter (fun c => c.1 != 0)).dedup).filter
                    (fun k => (lookupImg st.imagemap k).isNone)
                  = c :: (((rest.filter (fun c => c.1 != 0)).dedup).filter
                    (fun k => (lookupImg st.imagemap k).isNone)) := by
                simp [List.filter_cons, hcfil]
              rw [hsplit]
              simp only [List.length_cons]
              omega

theorem lookupImg_eq_none_iff (m : List ((Nat × Nat) × (Nat × Nat))) (k : Nat × Nat) :
    lookupImg m k = none ↔ k ∉ m.map Prod.fst := by
  induction m with
  | nil => simp [lookupImg]
  | cons e rest ih =>
      obtain ⟨k0, v0⟩ := e
      rw [lookupImg_cons]
      by_cases hk : k = k0
      · simp [hk]
      · simp [hk, ih]

/-- One registration preserves distinctness of `imagemap` keys. -/
theorem register_keys_nodup (st : MapState) (g f : Nat)
    (h : (st.imagemap.map Prod.fst).Nodup) :
    ((register_gid st g f).2.imagemap.map Prod.fst).Nodup := by
  by_cases hg : g = 0
  · subst hg
    rw [reg_zero]
    exact h
  · cases hl : lookupImg st.imagemap (g, f) with
    | some v =>
        rw [reg_hit st g f v hg hl]
        exact h
    | none =>
        rw [reg_miss st g f hg hl]
        simp only [List.map_cons, List.nodup_cons]
        exact ⟨(lookupImg_eq_none_iff st.imagemap (g, f)).mp hl, h⟩

/-- Distinctness of `imagemap` keys is invariant under any call sequence:
each pair is stored (allocated) at most once. -/
theorem runState_keys_nodup (calls : List (Nat × Nat)) :
    ∀ st : MapState, (st.imagemap.map Prod.fst).Nodup →
      ((runState st calls).imagemap.map Prod.fst).Nodup := by
  induction calls with
  | nil => exact fun st h => h
  | cons c rest ih =>
      intro st h
      exact ih (register_gid st c.1 c.2).2 (register_keys_nodup st c.1 c.2 h)

/-- C1.  Registry dedup invariant: over any call sequence on a fresh map,
(i) any two calls with the same nonzero `(base_gid, flags)` pair return the
same compact GID; (ii) the number of compact GIDs allocated (the final
counter minus the initial 1) equals the number of distinct nonzero pairs
ever registered, independent of repetition and order; (iii) `imagemap`
holds at most one entry per pair, so allocation happens at most once per
distinct pair. -/
theorem register_gid_dedup_invariant (calls : List (Nat × Nat)) :
    (∀ i j (hi : i < calls.length) (hj : j < calls.length),
        calls.get ⟨i, hi⟩ = calls.get ⟨j, hj⟩ → (calls.get ⟨i, hi⟩).1 ≠ 0 →
        (runRegs initMapState calls).1[i]? = (runRegs initMapState calls).1[j]?)
  ∧ (runState initMapState calls).maxgid
      = 1 + ((calls.filter (fun c => c.1 != 0)).dedup).length
  ∧ ((runState initMapState calls).imagemap.map Prod.fst).Nodup := by
  refine ⟨?_, ?_, ?_⟩
  · intro i j hi hj heq hz
    have hzj : (calls.get ⟨j, hj⟩).1 ≠ 0 := heq ▸ hz
    rw [runRegs_out_lookup calls initMapState i hi hz,
        runRegs_out_lookup calls initMapState j hj hzj, heq]
  · rw [runState_maxgid calls initMapState]
    have hfil : (((calls.filter (fun c => c.1 != 0)).dedup).filter
        (fun c => (lookupImg initMapState.imagemap c).isNone))
        = (calls.filter (fun c => c.1 != 0)).dedup := by
      apply List.filter_eq_self.mpr
      intro x hx
      have hx2 := List.of_mem_filter (List.mem_dedup.mp hx)
      have hxz : x.1 ≠ 0 := by simpa using hx2
      have hxne : x ≠ ((0 : Nat), (0 : Nat)) := by
        intro he
        rw [he] at hxz
        exact hxz rfl
      have hxne2 : ¬(x = ((0 : Nat), (0 : Nat))) := hxne
      show (lookupImg initMapState.imagemap x).isNone = true
      show (lookupImg [(((0 : Nat), (0 : Nat)), ((0 : Nat), (0 : Nat)))] x).isNone = true
      rw [lookupImg_cons]
      rw [if_neg hxne2]
      rfl
    rw [hfil]
    have : initMapState.maxgid = 1 := rfl
    omega
  · exact runState_keys_nodup calls initMapState (by simp [initMapState])

theorem register_gid_dedup_invariant_witness :
    [((5 : Nat), (0 : Nat)), (7, 1), (5, 0)].get ⟨0, by decide⟩
      = [((5 : Nat), (0 : Nat)), (7, 1), (5, 0)].get ⟨2, by decide⟩
  ∧ (runRegs initMapState [(5, 0), (7, 1), (5, 0)]).1[0]?
      = (runRegs initMapState [(5, 0), (7, 1), (5, 0)]).1[2]? := by
  refine ⟨by decide, ?_⟩
  exact (register_gid_dedup_invariant [(5, 0), (7, 1), (5, 0)]).1 0 2 (by decide) (by decide)
    (by decide) (by decide)

theorem gidmapGet_append (m : List (Nat × List (Nat × Nat))) (k : Nat) (e : Nat × Nat) (g : Nat) :
    gidmapGet (gidmapAppend m k e) g
      = if g = k then gidmapGet m g ++ [e] else gidmapGet m g := by
  induction m with
  | nil =>
      by_cases hg : g = k
      · simp [gidmapAppend, gidmapGet, hg]
      · simp [gidmapAppend, gidmapGet, hg]
  | cons p rest ih =>
      obtain ⟨k0, l0⟩ := p
      by_cases hk : k = k0
      · subst hk
        by_cases hg : g = k
        · simp [gidmapAppend, gidmapGet, hg]
        · simp [gidmapAppend, gidmapGet, hg]
      · by_cases hg : g = k0
        · have hgk : ¬(g = k) := by
            intro he
            apply hk
            rw [← he]
            exact hg
          have hk2 : ¬(k0 = k) := fun he => hk he.symm
          simp [gidmapAppend, gidmapGet, hk, hg, hgk, hk2]
        · simp [gidmapAppend, gidmapGet, hk, hg, ih]

/-- `map_gid` after a run, against the spec-side allocation trace: the
origins list grows exactly by the allocations made for that base GID, in
allocation order.  `seen` abstracts the pairs already registered in `st`. -/
theorem runState_map_gid (calls : List (Nat × Nat)) :
    ∀ (st : MapState) (seen : List (Nat × Nat)) (g : Nat),
      (∀ p : Nat × Nat, p.1 ≠ 0 → ((lookupImg st.imagemap p).isSome ↔ p ∈ seen)) →
      map_gid (runState st calls) g
        = map_gid st g ++ ((allocList calls seen st.maxgid).filter
            (fun e => e.1.1 == g)).map (fun e => (e.2, e.1.2)) := by
  induction calls with
  | nil =>
      intro st seen g hcoh
      simp [runState, runRegs, allocList]
  | cons c rest ih =>
      intro st seen g hcoh
      have hc : (c.1, c.2) = c := rfl
      by_cases hz : c.1 = 0
      · have hreg : register_gid st c.1 c.2 = (0, st) := by rw [hz]; exact reg_zero st c.2
        have hrun : runState st (c :: rest) = runState st rest := by
          simp [runState, runRegs, hreg]
        have halloc : allocList (c :: rest) seen st.maxgid = allocList rest seen st.maxgid := by
          simp [allocList, hz]
        rw [hrun, halloc]
        exact ih st seen g hcoh
      · cases hl : lookupImg st.imagemap (c.1, c.2) with
        | some v =>
            have hreg := reg_hit st c.1 c.2 v hz hl
            have hrun : runState st (c :: rest) = runState st rest := by
              simp [runState, runRegs, hreg]
            have hmem : c ∈ seen := by
              rw [hc] at hl
              exact (hcoh c hz).mp (by simp [hl])
            have halloc : allocList (c :: rest) seen st.maxgid
                = allocList rest seen st.maxgid := by
              simp [allocList, hmem]
            rw [hrun, halloc]
            exact ih st seen g hcoh
        | none =>
            have hreg := reg_miss st c.1 c.2 hz hl
            set st2 : MapState :=
              { imagemap := ((c.1, c.2), (st.maxgid, c.2)) :: st.imagemap,
                gidmap := gidmapAppend st.gidmap c.1 (st.maxgid, c.2),
                maxgid := st.maxgid + 1 } with hst2
            have hrun : runState st (c :: rest) = runState st2 rest := by
              simp [runState, runRegs, hreg]
            have hnm : c ∉ seen := by
              rw [hc] at hl
              intro hmem
              have := (hcoh c hz).mpr hmem
              rw [hl] at this
              cases this
            have halloc : allocList (c :: rest) seen st.maxgid
                = (c, st.maxgid) :: allocList rest (c :: seen) (st.maxgid + 1) := by
              simp [allocList, hz, hnm]
            have hcoh2 : ∀ p : Nat × Nat, p.1 ≠ 0 →
                ((lookupImg st2.imagemap p).isSome ↔ p ∈ c :: seen) := by
              intro p hp
              show (lookupImg (((c.1, c.2), (st.maxgid, c.2)) :: st.imagemap) p).isSome ↔ _
              rw [lookupImg_cons]
              by_cases hpc : p = c
              · simp [hc, hpc]
              · rw [hc]
                rw [if_neg hpc]
                simp only [List.mem_cons, hpc, false_or]
                exact hcoh p hp
            have hmax2 : st2.maxgid = st.maxgid + 1 := rfl
            have ih2 := ih st2 (c :: seen) g hcoh2
            rw [hrun, halloc, ih2, hmax2]
            have hmg2 : map_gid st2 g
                = if g = c.1 then map_gid st g ++ [(st.maxgid, c.2)] else map_gid st g := by
              show gidmapGet (gidmapAppend st.gidmap c.1 (st.maxgid, c.2)) g = _
              exact gidmapGet_append st.gidmap c.1 (st.maxgid, c.2) g
            by_cases hg : g = c.1
            · have hfc : ((c, st.maxgid) :: allocList rest (c :: seen) (st.maxgid + 1)).filter
                    (fun e => e.1.1 == g)
                  = (c, st.maxgid) :: (allocList rest (c :: seen) (st.maxgid + 1)).filter
                    (fun e => e.1.1 == g) := by
                simp [List.filter_cons, hg]
              rw [hfc, hmg2, if_pos hg]
              simp
            · have hfc : ((c, st.maxgid) :: allocList rest (c :: seen) (st.maxgid + 1)).filter
                    (fun e => e.1.1 == g)
                  = (allocList rest (c :: seen) (st.maxgid + 1)).filter
                    (fun e => e.1.1 == g) := by
                have : (c.1 == g) = false := by
                  simp only [beq_eq_false_iff_ne, ne_eq]
                  exact fun he => hg he.symm
                simp [List.filter_cons, this]
              rw [hfc, hmg2, if_neg hg]

/-- Entries of the allocation trace come from the call list. -/
theorem allocList_mem (calls : List (Nat × Nat)) :
    ∀ (seen : List (Nat × Nat)) (next : Nat) (e : (Nat × Nat) × Nat),
      e ∈ allocList calls seen next → e.1 ∈ calls := by
  induction calls with
  | nil =>
      intro seen next e he
      cases he
  | cons c rest ih =>
      intro seen next e he
      by_cases hcond : c.1 ≠ 0 ∧ c ∉ seen
      · rw [allocList, if_pos hcond] at he
        rcases List.mem_cons.mp he with rfl | h2
        · exact List.mem_cons_self _ _
        · exact List.mem_cons_of_mem _ (ih (c :: seen) (next + 1) e h2)
      · rw [allocList, if_neg hcond] at he
        exact List.mem_cons_of_mem _ (ih seen next e he)

/-- C8.  `map_gid` (the spec's `lookup_origins`) on a base GID never
registered returns `[]` without error, and on any base GID returns exactly
the allocations ever made for it, in allocation order (`allocList` is the
spec-side allocation trace of the call sequence). -/
theorem map_gid_lookup_origins (calls : List (Nat × Nat)) (g : Nat) :
    ((∀ c ∈ calls, c.1 ≠ g) → map_gid (runState initMapState calls) g = [])
  ∧ map_gid (runState initMapState calls) g
      = ((allocList calls [] 1).filter (fun e => e.1.1 == g)).map (fun e => (e.2, e.1.2)) := by
  have hcoh : ∀ p : Nat × Nat, p.1 ≠ 0 →
      ((lookupImg initMapState.imagemap p).isSome ↔ p ∈ ([] : List (Nat × Nat))) := by
    intro p hp
    have hpne : ¬(p = ((0 : Nat), (0 : Nat))) := by
      intro he
      rw [he] at hp
      exact hp rfl
    show (lookupImg [(((0 : Nat), (0 : Nat)), ((0 : Nat), (0 : Nat)))] p).isSome ↔ _
    rw [lookupImg_cons, if_neg hpne]
    simp [lookupImg]
  have hmain := runState_map_gid calls initMapState [] g hcoh
  have hinit : map_gid initMapState g = [] := rfl
  have hinitmax : initMapState.maxgid = 1 := rfl
  rw [hinit, hinitmax] at hmain
  rw [List.nil_append] at hmain
  refine ⟨?_, hmain⟩
  intro hne
  rw [hmain]
  have hfe : (allocList calls [] 1).filter (fun e => e.1.1 == g) = [] := by
    apply List.filter_eq_nil_iff.mpr
    intro e he
    have := hne e.1 (allocList_mem calls [] 1 e he)
    simp only [beq_eq_false_iff_ne, ne_eq]
    simpa using this
  rw [hfe]
  rfl

theorem map_gid_lookup_origins_witness :
    ((9 : Nat) ∉ [((5 : Nat), (0 : Nat)), (5, 2), (7, 0)].map Prod.fst)
  ∧ map_gid (runState initMapState [(5, 0), (5, 2), (7, 0)]) 9 = []
  ∧ map_gid (runState initMapState [(5, 0), (5, 2), (7, 0)]) 5
      = ((allocList [(5, 0), (5, 2), (7, 0)] [] 1).filter
          (fun e => e.1.1 == 5)).map (fun e => (e.2, e.1.2)) := by
  refine ⟨by decide, ?_, (map_gid_lookup_origins [(5, 0), (5, 2), (7, 0)] 5).2⟩
  exact (map_gid_lookup_origins [(5, 0), (5, 2), (7, 0)] 9).1 (by decide)

/-- C9.  Zero passthrough: `register_gid(0, flags)` returns 0 and leaves
the registry untouched — no allocation, no counter advance, no change to
either table (the full state is returned unchanged). -/
theorem register_gid_zero_passthrough (st : MapState) (flags : Nat) :
    register_gid st 0 flags = (0, st) := by
  simp [register_gid]

theorem register_gid_zero_passthrough_witness :
    register_gid initMapState 0 5 = (0, initMapState) :=
  register_gid_zero_passthrough initMapState 5

/-! The XML model and element parsing.

A minimal model of the `xml.etree.ElementTree` interface the source uses:
`node.get(attr)` (`attrGet`), `node.findall(tag)` (`findAll`, direct
children only), `node.find(tag)` (`findChild`, first match or `None`),
`node.text`, and `node.getiterator(tag)` (`iterTag`, all descendants in
document order). -/

inductive XMLNode : Type where
  | node (tag : String) (attrs : List (String × String)) (text : Option String)
      (children : List XMLNode)

def XMLNode.tag : XMLNode → String
  | .node t _ _ _ => t

def XMLNode.attrs : XMLNode → List (String × String)
  | .node _ a _ _ => a

def XMLNode.text : XMLNode → Option String
  | .node _ _ x _ => x

def XMLNode.children : XMLNode → List XMLNode
  | .node _ _ _ cs => cs

/-- `node.get(key, None)`. -/
def attrGet (n : XMLNode) (k : String) : Option String :=
  (n.attrs.find? (fun p => p.1 == k)).map (fun p => p.2)

/-- `node.findall(tag)`: direct children with the tag, in document order. -/
def findAll (n : XMLNode) (t : String) : List XMLNode :=
  n.children.filter (fun c => c.tag == t)

/-- `node.find(tag)`: first matching direct child, or `None`. -/
def findChild (n : XMLNode) (t : String) : Option XMLNode :=
  (findAll n t).head?

mutual

/-- All elements of the subtree in document (preorder) order, including
the node itself, as `node.getiterator()` yields them. -/
def XMLNode.iterAll : XMLNode → List XMLNode
  | .node t a x cs => .node t a x cs :: iterAllL cs

/-- `iterAll` over a child list. -/
def iterAllL : List XMLNode → List XMLNode
  | [] => []
  | c :: rest => c.iterAll ++ iterAllL rest

end

/-- `node.getiterator(tag)`. -/
def iterTag (n : XMLNode) (t : String) : List XMLNode :=
  n.iterAll.filter (fun c => c.tag == t)

/-- Decoded values of Tiled properties.  A float value is kept as its
accepted literal (stripped); no claim computes with float values, so no
floating-point arithmetic is modelled. -/
inductive PropValue where
  | pStr (s : String)
  | pInt (n : Int)
  | pBool (b : Bool)
  | pFloat (lit : String)
  deriving DecidableEq, Repr

/-- A Python dict with the key/value types `set_properties` produces; the
key is `subnode.get('name')` and may be `None`.  Insertion order list with
overwrite-in-place semantics. -/
abbrev PropDict : Type := List (Option String × PropValue)

/-- `d[k] = v` on a dict: overwrite in place if the key exists, else append. -/
def dictSet (d : PropDict) (k : Option String) (v : PropValue) : PropDict :=
  if d.any (fun e => e.1 == k) then
    d.map (fun e => if e.1 == k then (k, v) else e)
  else d ++ [(k, v)]

/-- The conversions of the `types` table (pytmx.py lines 53-78). -/
inductive PropConv where
  | toFloat
  | toInt
  | toStr
  | toBool
  deriving DecidableEq, Repr

/-- The `types` defaultdict: `version`, `opacity`, `x`, `y`, `rotation`
convert with `float`; `width`, `height`, `tilewidth`, `tileheight`,
`firstgid`, `spacing`, `margin`, `id`, `gid` with `int`; `visible` with
`handle_bool`; the explicitly listed string keys and the defaultdict
default are both `str`. -/
def typesTable (k : String) : PropConv :=
  if k = "version" || k = "opacity" || k = "x" || k = "y" || k = "rotation" then .toFloat
  else if k = "width" || k = "height" || k = "tilewidth" || k = "tileheight"
      || k = "firstgid" || k = "spacing" || k = "margin" || k = "id" || k = "gid" then .toInt
  else if k = "visible" then .toBool
  else .toStr

/-- Python `int(x)` at the call sites: `int(None)` raises `TypeError`, a
non-numeric string raises `ValueError`. -/
def pyIntBuiltin (v : Option String) : Except PyError Int :=
  match v with
  | none => .error .typeError
  | some s =>
      match pyIntOfString s with
      | some n => .ok n
      | none => .error .valueError

/-- Whole-list digit part (used by the float grammar): nonempty digits with
PEP 515 underscore grouping. -/
def isDigitPart (cs : List Char) : Bool :=
  (parseDigits cs).isSome

/-- Split a character list on a separator character, keeping empty fields. -/
def splitChar (sep : Char) (acc : List Char) : List Char → List (List Char)
  | [] => [acc.reverse]
  | c :: rest => if c = sep then acc.reverse :: splitChar sep [] rest else splitChar sep (c :: acc) rest

def isSignedDigitPart (cs : List Char) : Bool :=
  match cs with
  | '+' :: r => isDigitPart r
  | '-' :: r => isDigitPart r
  | r => isDigitPart r

/-- Mantissa of a float literal: `digits`, `digits.`, `digits.digits`, or
`.digits`. -/
def isMantissa (cs : List Char) : Bool :=
  match splitChar '.' [] cs with
  | [ip] => isDigitPart ip
  | [ip, frac] =>
      (ip == [] && isDigitPart frac)
      || (isDigitPart ip && (frac == [] || isDigitPart frac))
  | _ => false

def isFloatBody (cs : List Char) : Bool :=
  let lower := cs.map Char.toLower
  if lower == "inf".data || lower == "infinity".data || lower == "nan".data then true
  else
    match splitChar 'e' [] lower with
    | [mant] => isMantissa mant
    | [mant, expo] => isMantissa mant && isSignedDigitPart expo
    | _ => false

/-- Acceptance of CPython `float(s)` on an already-stripped string
(ASCII grammar; exotic unicode digits are outside the model). -/
def isFloatLit (cs : List Char) : Bool :=
  match cs with
  | '+' :: r => isFloatBody r
  | '-' :: r => isFloatBody r
  | r => isFloatBody r

/-- Python `float(x)` at the call sites: `float(None)` raises `TypeError`,
a bad literal raises `ValueError`; an accepted literal is kept verbatim. -/
def pyFloatBuiltin (v : Option String) : Except PyError PropValue :=
  match v with
  | none => .error .typeError
  | some s =>
      if isFloatLit (pyStripList s.data) then .ok (.pFloat (pyStrip s))
      else .error .valueError

/-- Apply one `types` conversion to an attribute value. -/
def applyConv : PropConv → Option String → Except PyError PropValue
  | .toStr, v => .ok (.pStr (pyStr v))
  | .toInt, v =>
      match pyIntBuiltin v with
      | .error e => .error e
      | .ok n => .ok (.pInt n)
  | .toBool, v =>
      match handle_bool v with
      | .error e => .error e
      | .ok b => .ok (.pBool b)
  | .toFloat, v => pyFloatBuiltin v

/-- The inner loop of `set_properties`: for each `property` element,
`d[name] = types[str(name)](value)`. -/
def setPropsLoop : List XMLNode → PropDict → Except PyError PropDict
  | [], d => .ok d
  | sub :: rest, d =>
      let k := attrGet sub "name"
      let v := attrGet sub "value"
      match applyConv (typesTable (pyStr k)) v with
      | .error e => .error e
      | .ok val => setPropsLoop rest (dictSet d k val)

/-- `TiledElement.set_properties` (lines 145-156): read the `property`
children of the `properties` children and build the `properties` dict.
It fills only the dict — it does not assign node attributes onto the
element. -/
def set_properties (node : XMLNode) : Except PyError PropDict :=
  setPropsLoop (((findAll node "properties").map (fun c => findAll c "property")).flatten) []

/-- `parse_properties` (lines 81-88): the function body consists only of a
docstring, so it returns `None` — despite its docstring promising a dict. -/
def parse_properties (_node : XMLNode) : Option PropDict :=
  none

/-! The element models.

Fields mirror the `__init__` defaults of each class.  `set_properties`
fills only the `properties` dict, so attribute-backed fields keep their
defaults during `from_xml` unless the method assigns them explicitly. -/

structure TilesetModel where
  firstgid : Int
  source : Option String
  name : Option String
  tilewidth : Int
  tileheight : Int
  spacing : Int
  margin : Int
  trans : Option String
  width : Int
  height : Int
  properties : PropDict
  deriving DecidableEq, Repr

structure TileLayerModel where
  data : List (List Nat)
  name : Option String
  height : Int
  width : Int
  properties : PropDict
  deriving DecidableEq, Repr

/-- `opacity`/`visible` hold the raw attribute string when present
(`node.get('opacity', elem.opacity)` returns the string, not a number);
`none` means the numeric default 1 from `__init__` was kept. -/
structure ImageLayerModel where
  source : Option String
  trans : Option String
  name : Option String
  opacity : Option String
  visible : Option String
  gid : Nat
  properties : PropDict
  deriving DecidableEq, Repr

/-- Only the fields the map-level final pass reads.  Geometry fields are
not modelled: `ObjectGroup.from_xml` raises on its first `object` child
(`elem.parent` is never assigned), so no `Object` is ever constructed, and
no claim concerns object geometry. -/
structure ObjectModel where
  gid : Nat
  properties : PropDict
  deriving DecidableEq, Repr

structure ObjectGroupModel where
  name : Option String
  color : Option String
  opacity : Nat
  visible : Nat
  objects : List ObjectModel
  properties : PropDict
  deriving DecidableEq, Repr

inductive LayerModel where
  | tile (l : TileLayerModel)
  | image (l : ImageLayerModel)
  | objgroup (g : ObjectGroupModel)
  deriving DecidableEq, Repr

/-- `TiledMap.__init__` (lines 166-192).  `layers` is an `OrderedDict` in
the source but only its emptiness is ever observable (`add_layer` raises
before any insertion); `images` is filled by an external loader, never by
`from_xml`, and is omitted.  `version` is the Python float `0.0`, kept as
its literal. -/
structure TiledMapModel where
  properties : PropDict
  layers : List LayerModel
  tilesets : List TilesetModel
  tile_properties : List (Nat × PropDict)
  registry : MapState
  version : String
  orientation : Option String
  width : Int
  height : Int
  tilewidth : Int
  tileheight : Int
  background_color : Option String
  deriving DecidableEq, Repr

/-- A freshly constructed `TiledMap()`. -/
def initTiledMap : TiledMapModel :=
  { properties := [], layers := [], tilesets := [], tile_properties := [],
    registry := initMapState, version := "0.0", orientation := none,
    width := 0, height := 0, tilewidth := 0, tileheight := 0,
    background_color := none }

/-- Python truthiness of an optional string: `None` and `""` are falsy. -/
def strTruthy : Option String → Bool
  | none => false
  | some s => !(s == "")

/-- `TileLayer.from_xml` (lines 531-604).  The base64 decoder and the two
decompressors are the external collaborators of the spec and are passed as
parameters; on every path proved about below they are either not invoked
or their output is discarded.

After the encoding/compression dispatch the source executes
`reg = elem.parent.register_gid` (line 598); `parent` is never assigned on
any `TiledElement`, so this raises `AttributeError` on every surviving
path and the grid-building loop below it (lines 601-603) is unreachable. -/
def TileLayer.fromXml (b64decode : String → Except PyError (List Nat))
    (gunzipData : List Nat → Except PyError (List Nat))
    (zlibDecompress : List Nat → Except PyError (List Nat))
    (node : XMLNode) : Except PyError TileLayerModel :=
  match set_properties node with
  | .error e => .error e
  | .ok _props =>
    match findChild node "data" with
    | none => .error .attributeError
    | some dn =>
      let encoding := attrGet dn "encoding"
      let step1 : Except PyError (Option (List Nat) × Option (List String)) :=
        if encoding = some "base64" then
          match dn.text with
          | none => .error .attributeError
          | some t =>
              match b64decode (pyStrip t) with
              | .error e => .error e
              | .ok bytes => .ok (some bytes, none)
        else if encoding = some "csv" then
          match dn.text with
          | none => .error .attributeError
          | some t => .ok (none, some (csvTokens t))
        else if strTruthy encoding then
          .error (.exception ("TMX encoding type: " ++ pyStr encoding ++ " is not supported."))
        else .ok (none, none)
      match step1 with
      | .error e => .error e
      | .ok (dat, _next_gid) =>
        let compression := attrGet dn "compression"
        let step2 : Except PyError (Option (List Nat)) :=
          if compression = some "gzip" then
            match dat with
            | none => .error .typeError
            | some bytes =>
                match gunzipData bytes with
                | .error e => .error e
                | .ok d2 => .ok (some d2)
          else if compression = some "zlib" then
            match dat with
            | none => .error .typeError
            | some bytes =>
                match zlibDecompress bytes with
                | .error e => .error e
                | .ok d2 => .ok (some d2)
          else if strTruthy compression then
            .error (.exception ("TMX compression type: " ++ pyStr compression ++ " is not supported."))
          else .ok dat
        match step2 with
        | .error e => .error e
        | .ok _dat2 => .error .attributeError

/-- The per-tile metadata loop of `Tileset.from_xml` (lines 493-499).  For
the first `tile` element: `int(child.get("id"))` may raise; then
`p = parse_properties(child)` is `None`, so `p['width'] = ...` raises
`TypeError`.  The `some` arm is unreachable; were it reached, the next
statement `elem.parent.map_gid(...)` would raise `AttributeError`
(`parent` is never assigned). -/
def tilesetTileLoop (tiles : List XMLNode) : Except PyError Unit :=
  match tiles with
  | [] => .ok ()
  | child :: _ =>
      match pyIntBuiltin (attrGet child "id") with
      | .error e => .error e
      | .ok _real_gid =>
          match parse_properties child with
          | none => .error .typeError
          | some _p => .error .attributeError

/-- Python `s[-4:]`. -/
def strLast4 (s : String) : String :=
  String.mk (s.data.drop (s.data.length - 4))

/-- `Tileset.from_xml` (lines 455-506).  An external-tileset reference
raises (`.tsx`: `elem.parent.filename` with `parent` never assigned;
otherwise the explicit `raise Exception`, whose message formats
`elem.source`, still `None` at that point).  Inline: `set_properties`, the
per-tile metadata loop over all `tile` descendants, then the `image`
child; `firstgid`, `name`, `tilewidth`, `tileheight`, `spacing`, `margin`
keep their `__init__` defaults because `set_properties` does not assign
attributes. -/
def Tileset.fromXml (node : XMLNode) : Except PyError TilesetModel :=
  let source := attrGet node "source"
  if strTruthy source then
    if pyLower (strLast4 (pyStr source)) = ".tsx" then .error .attributeError
    else .error (.exception "Found external tileset, but cannot handle type: None")
  else
    match set_properties node with
    | .error e => .error e
    | .ok props =>
      match tilesetTileLoop (iterTag node "tile") with
      | .error e => .error e
      | .ok _ =>
        match findChild node "image" with
        | none => .error .attributeError
        | some img =>
          match pyIntBuiltin (attrGet img "width") with
          | .error e => .error e
          | .ok w =>
            match pyIntBuiltin (attrGet img "height") with
            | .error e => .error e
            | .ok h =>
              .ok { firstgid := 0, source := attrGet img "source", name := none,
                    tilewidth := 0, tileheight := 0, spacing := 0, margin := 0,
                    trans := attrGet img "trans", width := w, height := h,
                    properties := props }

/-- `ObjectGroup.from_xml` (lines 689-700): on the first `object` child the
source evaluates `Object(elem.parent, child)`; `elem.parent` is never
assigned, so it raises `AttributeError`.  With no objects the group is
returned with its defaults (`name`/`color` stay `None`: `set_properties`
does not assign attributes). -/
def ObjectGroup.fromXml (node : XMLNode) : Except PyError ObjectGroupModel :=
  match set_properties node with
  | .error e => .error e
  | .ok props =>
      match findAll node "object" with
      | [] => .ok { name := none, color := none, opacity := 1, visible := 1,
                    objects := [], properties := props }
      | _ :: _ => .error .attributeError

/-- `ImageLayer.from_xml` (lines 721-736): `set_properties`, then the
`name`/`opacity`/`visible` attributes, then the `image` child (raising
`AttributeError` when absent: `image_node.get` on `None`). -/
def ImageLayer.fromXml (node : XMLNode) : Except PyError ImageLayerModel :=
  match set_properties node with
  | .error e => .error e
  | .ok props =>
      match findChild node "image" with
      | none => .error .attributeError
      | some img =>
          .ok { source := attrGet img "source", trans := attrGet img "trans",
                name := attrGet node "name",
                opacity := attrGet node "opacity", visible := attrGet node "visible",
                gid := 0, properties := props }

/-- `TiledMap.add_layer` (lines 339-349): the isinstance assert passes, but
`self.layers` is an `OrderedDict`, which has no `append` method (and
`self.layernames` is never initialised), so the call raises
`AttributeError` unconditionally. -/
def add_layer (_m : TiledMapModel) (_l : LayerModel) : Except PyError TiledMapModel :=
  .error .attributeError

/-- `TiledMap.add_tileset` (lines 351-357): a plain list append. -/
def add_tileset (m : TiledMapModel) (ts : TilesetModel) : TiledMapModel :=
  { m with tilesets := m.tilesets ++ [ts] }

def layerLoop (b64 : String → Except PyError (List Nat))
    (gz zl : List Nat → Except PyError (List Nat)) (m : TiledMapModel) :
    List XMLNode → Except PyError TiledMapModel
  | [] => .ok m
  | sub :: rest =>
      match TileLayer.fromXml b64 gz zl sub with
      | .error e => .error e
      | .ok l =>
          match add_layer m (.tile l) with
          | .error e => .error e
          | .ok m2 => layerLoop b64 gz zl m2 rest

def imageLayerLoop (m : TiledMapModel) : List XMLNode → Except PyError TiledMapModel
  | [] => .ok m
  | sub :: rest =>
      match ImageLayer.fromXml sub with
      | .error e => .error e
      | .ok l =>
          match add_layer m (.image l) with
          | .error e => .error e
          | .ok m2 => imageLayerLoop m2 rest

def objectGroupLoop (m : TiledMapModel) : List XMLNode → Except PyError TiledMapModel
  | [] => .ok m
  | sub :: rest =>
      match ObjectGroup.fromXml sub with
      | .error e => .error e
      | .ok g =>
          match add_layer m (.objgroup g) with
          | .error e => .error e
          | .ok m2 => objectGroupLoop m2 rest

def tilesetLoop (m : TiledMapModel) : List XMLNode → Except PyError TiledMapModel
  | [] => .ok m
  | sub :: rest =>
      match Tileset.fromXml sub with
      | .error e => .error e
      | .ok ts => tilesetLoop (add_tileset m ts) rest

/-- `TiledMap.get_tile_properties_by_gid`. -/
def get_tile_properties_by_gid (m : TiledMapModel) (gid : Nat) : Option PropDict :=
  ((m.tile_properties).find? (fun e => e.1 == gid)).map (fun e => e.2)

/-- `dict.update`. -/
def dictUpdate (d p : PropDict) : PropDict :=
  p.foldl (fun acc e => dictSet acc e.1 e.2) d

/-- The final pass of `TiledMap.from_xml` (lines 233-236): for each
tile-object, merge in its tile's property dict when one exists and is
non-empty (`if p:`).  Objects live only in object-group layers. -/
def objectsPass (m : TiledMapModel) : TiledMapModel :=
  { m with layers := m.layers.map (fun l =>
      match l with
      | .objgroup og => .objgroup { og with objects := og.objects.map (fun o =>
          match get_tile_properties_by_gid m o.gid with
          | some p => if p ≠ [] then { o with properties := dictUpdate o.properties p } else o
          | none => o) }
      | other => other) }

/-- `TiledMap.from_xml` (lines 205-238): `set_properties`, the
`backgroundcolor` attribute, then the layer / image-layer / object-group /
tileset children in that order, then the final tile-object pass. -/
def TiledMap.fromXml (b64 : String → Except PyError (List Nat))
    (gz zl : List Nat → Except PyError (List Nat)) (node : XMLNode) :
    Except PyError TiledMapModel :=
  match set_properties node with
  | .error e => .error e
  | .ok props =>
      let m0 := { initTiledMap with
                  properties := props
                  background_color := attrGet node "backgroundcolor" }
      match layerLoop b64 gz zl m0 (findAll node "layer") with
      | .error e => .error e
      | .ok m1 =>
          match imageLayerLoop m1 (findAll node "imagelayer") with
          | .error e => .error e
          | .ok m2 =>
              match objectGroupLoop m2 (findAll node "objectgroup") with
              | .error e => .error e
              | .ok m3 =>
                  match tilesetLoop m3 (findAll node "tileset") with
                  | .error e => .error e
                  | .ok m4 => .ok (objectsPass m4)

/-- `TiledElement.from_string` (lines 107-117) instantiated at `TiledMap`:
`new = cls()`, parse the string, call `new.from_xml(node)` — a
*classmethod*, which builds and returns a separate parsed map that the
caller discards — and return `new`, the default-constructed instance.
Exceptions from `from_xml` propagate. -/
def TiledMap.fromString (b64 : String → Except PyError (List Nat))
    (gz zl : List Nat → Except PyError (List Nat))
    (parseTree : String → XMLNode) (xml_string : String) :
    Except PyError TiledMapModel :=
  match TiledMap.fromXml b64 gz zl (parseTree xml_string) with
  | .error e => .error e
  | .ok _ => .ok initTiledMap

/-! Concrete inputs and the layer, tileset and map claims. -/

/-- Stand-in for the external base64 collaborator; no claim proved here
depends on its behaviour (the paths exercised never consult it). -/
def b64Stub : String → Except PyError (List Nat) := fun _ => .error .valueError

/-- Stand-in for the external gzip collaborator. -/
def gzStub : List Nat → Except PyError (List Nat) := fun _ => .error .valueError

/-- Stand-in for the external zlib collaborator. -/
def zlStub : List Nat → Except PyError (List Nat) := fun _ => .error .valueError

/-- A well-formed 2×1 CSV tile layer with a complete payload (2 values). -/
def layerNodeCsv : XMLNode :=
  .node "layer" [("width", "2"), ("height", "1")] none
    [.node "data" [("encoding", "csv")] (some "5,0") []]

/-- C3 (code bug).  `TileLayer.from_xml` raises `AttributeError` even on a
complete, well-formed CSV layer: line 598 reads `elem.parent`, which is
never assigned, before the grid loop runs; moreover the declared
`width`/`height` attributes are never read (`set_properties` fills only
the properties dict), so the element keeps `width = height = 0`.  No grid
is ever built and truncation is never the failure mode. -/
theorem tile_layer_from_xml_attribute_error :
    TileLayer.fromXml b64Stub gzStub zlStub layerNodeCsv = .error .attributeError
  ∧ (∀ l, TileLayer.fromXml b64Stub gzStub zlStub layerNodeCsv ≠ .ok l)
  ∧ set_properties layerNodeCsv = .ok [] := by
  have h0 : TileLayer.fromXml b64Stub gzStub zlStub layerNodeCsv
      = .error .attributeError := by rfl
  refine ⟨h0, ?_, by rfl⟩
  intro l hl
  rw [h0] at hl
  cases hl

/-- A tileset with `firstgid=10` and a per-tile metadata block for tile
`id=3` (as in the spec's backfill example), plus a well-formed image. -/
def tilesetNodeWithTile : XMLNode :=
  .node "tileset" [("firstgid", "10")] none
    [ .node "tile" [("id", "3")] none
        [.node "properties" [] none
          [.node "property" [("name", "foo"), ("value", "bar")] none []]],
      .node "image" [("source", "tiles.png"), ("width", "64"), ("height", "32")] none [] ]

/-- C4 (code bug).  Parsing a tileset with any per-tile metadata block
raises `TypeError`: `parse_properties` returns `None` (its body is only a
docstring), so `p['width'] = elem.tilewidth` subscripts `None`.  The
property dict is never stored under any compact GID, regardless of what
was registered. -/
theorem tileset_tile_metadata_type_error :
    Tileset.fromXml tilesetNodeWithTile = .error .typeError
  ∧ (∀ ts, Tileset.fromXml tilesetNodeWithTile ≠ .ok ts)
  ∧ parse_properties (.node "tile" [("id", "3")] none []) = none := by
  have h0 : Tileset.fromXml tilesetNodeWithTile = .error .typeError := by rfl
  refine ⟨h0, ?_, rfl⟩
  intro ts hts
  rw [h0] at hts
  cases hts

/-- A childless map node carrying only a `backgroundcolor` attribute. -/
def mapNodeBg : XMLNode :=
  .node "map" [("backgroundcolor", "#1a2b3c")] none []

/-- C5 (code bug).  `from_string` parses the string, but calls `from_xml`
as a classmethod and discards its result, returning the
default-constructed map: the parsed map carries the background colour
while the map `from_string` returns is `initTiledMap`, whose background
colour is `None`.  The two constructions are not equivalent. -/
theorem from_string_returns_default_map :
    TiledMap.fromString b64Stub gzStub zlStub (fun _ => mapNodeBg) "" = .ok initTiledMap
  ∧ (TiledMap.fromXml b64Stub gzStub zlStub mapNodeBg).map (fun m => m.background_color)
      = .ok (some "#1a2b3c")
  ∧ initTiledMap.background_color = none
  ∧ (∀ m, TiledMap.fromXml b64Stub gzStub zlStub mapNodeBg = .ok m → m ≠ initTiledMap) := by
  refine ⟨by rfl, by rfl, rfl, ?_⟩
  intro m hm he
  have hbg : (TiledMap.fromXml b64Stub gzStub zlStub mapNodeBg).map
      (fun m => m.background_color) = .ok (some "#1a2b3c") := by rfl
  rw [hm] at hbg
  rw [he] at hbg
  cases hbg

/-- C6.  Unsupported encoding and compression values are fatal: when the
`data` block carries an encoding other than base64/csv/"" (the empty
string is the file format's "inline" value), or a compression other than
gzip/zlib/"", `TileLayer.from_xml` raises the corresponding
`Exception` whose message names the offending value, before any layer can
be produced.  Hypotheses pin the error to the dispatch itself:
`set_properties` succeeded and the `data` child exists (and, for the
compression half, the encoding stage completed). -/
theorem unsupported_encoding_compression_fatal
    (b64 : String → Except PyError (List Nat))
    (gz zl : List Nat → Except PyError (List Nat))
    (node dn : XMLNode) (ps : PropDict)
    (hset : set_properties node = .ok ps)
    (hfind : findChild node "data" = some dn) :
    (∀ e, attrGet dn "encoding" = some e → e ≠ "" → e ≠ "csv" → e ≠ "base64" →
      TileLayer.fromXml b64 gz zl node
        = .error (.exception ("TMX encoding type: " ++ e ++ " is not supported.")))
  ∧ (∀ c t, (attrGet dn "encoding" = none ∨ attrGet dn "encoding" = some ""
        ∨ (attrGet dn "encoding" = some "csv" ∧ dn.text = some t)) →
      attrGet dn "compression" = some c → c ≠ "" → c ≠ "gzip" → c ≠ "zlib" →
      TileLayer.fromXml b64 gz zl node
        = .error (.exception ("TMX compression type: " ++ c ++ " is not supported."))) := by
  constructor
  · intro e he h1 h2 h3
    have hb : ¬(attrGet dn "encoding" = some "base64") := by simp [he, h3]
    have hc : ¬(attrGet dn "encoding" = some "csv") := by simp [he, h2]
    have ht : strTruthy (attrGet dn "encoding") = true := by simp [he, strTruthy, h1]
    simp only [TileLayer.fromXml, hset, hfind]
    rw [if_neg hb, if_neg hc, if_pos ht, he]
    rfl
  · intro c t henc hcomp h1 h2 h3
    have hgz : ¬(attrGet dn "compression" = some "gzip") := by simp [hcomp, h2]
    have hzl : ¬(attrGet dn "compression" = some "zlib") := by simp [hcomp, h3]
    have htc : strTruthy (attrGet dn "compression") = true := by simp [hcomp, strTruthy, h1]
    simp only [TileLayer.fromXml, hset, hfind]
    rcases henc with henc | henc | ⟨henc, htext⟩
    · have hb : ¬(attrGet dn "encoding" = some "base64") := by simp [henc]
      have hc : ¬(attrGet dn "encoding" = some "csv") := by simp [henc]
      have ht : strTruthy (attrGet dn "encoding") = false := by simp [henc, strTruthy]
      rw [if_neg hb, if_neg hc, if_neg (by simp [ht])]
      simp only []
      rw [if_neg hgz, if_neg hzl, if_pos htc, hcomp]
      rfl
    · have hb : ¬(attrGet dn "encoding" = some "base64") := by simp [henc]
      have hc : ¬(attrGet dn "encoding" = some "csv") := by simp [henc]
      have ht : strTruthy (attrGet dn "encoding") = false := by simp [henc, strTruthy]
      rw [if_neg hb, if_neg hc, if_neg (by simp [ht])]
      simp only []
      rw [if_neg hgz, if_neg hzl, if_pos htc, hcomp]
      rfl
    · have hb : ¬(attrGet dn "encoding" = some "base64") := by simp [henc]
      rw [if_neg hb, if_pos henc, htext]
      simp only []
      rw [if_neg hgz, if_neg hzl, if_pos htc, hcomp]
      rfl

/-- A 2×1 layer whose data block declares the unsupported encoding
`"zip"`. -/
def layerNodeBadEncoding : XMLNode :=
  .node "layer" [("width", "2"), ("height", "1")] none
    [.node "data" [("encoding", "zip")] (some "5,0") []]

theorem unsupported_encoding_compression_fatal_witness :
    TileLayer.fromXml b64Stub gzStub zlStub layerNodeBadEncoding
      = .error (.exception ("TMX encoding type: " ++ "zip" ++ " is not supported.")) :=
  (unsupported_encoding_compression_fatal b64Stub gzStub zlStub layerNodeBadEncoding
    (.node "data" [("encoding", "zip")] (some "5,0") []) [] (by rfl) (by rfl)).1
    "zip" (by rfl) (by decide) (by decide) (by decide)

end PyTMX
